import Mathlib

/-
Formal model of the incremental Slack synchronization and caching engine:
cache_manager.py (SlackCacheManager) and getchannels.py (SlackDataExtractor
and the retry loop in main). Remote Slack calls are modelled as explicit
collaborator functions returning Except values; Python dictionaries holding
message records are modelled as structures with Option fields (a None field
models an absent key, matching dict.get).
-/

/-- Python string comparison as used by the source on timestamp strings:
lexicographic comparison of code points (the Python less-than operator on str). -/
def pyStrLtAux : List Char → List Char → Bool
  | _, [] => false
  | [], _ :: _ => true
  | a :: as, b :: bs => if a < b then true else if b < a then false else pyStrLtAux as bs

/-- pyStrLt s t corresponds to the Python expression s < t on strings. -/
def pyStrLt (s t : String) : Bool := pyStrLtAux s.data t.data

/-- Python truthiness of an optional string: present and non-empty. -/
def truthyStrOpt : Option String → Bool
  | some s => s != ""
  | none => false

/-- Opaque payload record (reactions and attachments entries are carried but never
inspected by the source). -/
structure OpaqueRec where
  payload : String
deriving DecidableEq, Repr

/-- The Message dataclass of getchannels.py. -/
structure Message where
  id : String
  channel_id : String
  channel_name : String
  user_id : String
  username : String
  timestamp : String
  text : String
  message_type : String
  subtype : Option String
  thread_ts : Option String
  is_thread_parent : Bool
  reply_count : Nat
  reactions : List OpaqueRec
  attachments : List OpaqueRec
deriving DecidableEq, Repr

/-- A cached message dictionary (the JSON objects stored in the messages list of the
cache). A None field models an absent key, matching the dict.get calls of the source. -/
structure MsgDict where
  id : Option String
  channel_id : Option String
  channel_name : Option String
  user_id : Option String
  username : Option String
  timestamp : Option String
  text : Option String
  message_type : Option String
  subtype : Option String
  thread_ts : Option String
  is_thread_parent : Option Bool
  reply_count : Option Nat
  reactions : Option (List OpaqueRec)
  attachments : Option (List OpaqueRec)
deriving DecidableEq, Repr

/-- dataclasses.asdict applied to a Message: every key is present. -/
def asdictMsg (m : Message) : MsgDict :=
  { id := some m.id, channel_id := some m.channel_id, channel_name := some m.channel_name,
    user_id := some m.user_id, username := some m.username, timestamp := some m.timestamp,
    text := some m.text, message_type := some m.message_type, subtype := m.subtype,
    thread_ts := m.thread_ts, is_thread_parent := some m.is_thread_parent,
    reply_count := some m.reply_count, reactions := some m.reactions,
    attachments := some m.attachments }

/-- Conversion of a cached dict back to a Message, with the defaults used in
SlackDataExtractor.get_cached_channel_messages. -/
def msgOfDict (d : MsgDict) : Message :=
  { id := d.id.getD "", channel_id := d.channel_id.getD "",
    channel_name := d.channel_name.getD "", user_id := d.user_id.getD "",
    username := d.username.getD "", timestamp := d.timestamp.getD "",
    text := d.text.getD "", message_type := d.message_type.getD "message",
    subtype := d.subtype, thread_ts := d.thread_ts,
    is_thread_parent := d.is_thread_parent.getD false, reply_count := d.reply_count.getD 0,
    reactions := d.reactions.getD [], attachments := d.attachments.getD [] }

/-- Per-channel bookkeeping entry stored under cache_data channels. -/
structure ChanEntry where
  name : String
  last_fetch : String
  last_message_ts : Option String
deriving DecidableEq, Repr

/-- The metadata sub-dictionary; fields are optional because a loaded cache file can
hold a partially populated metadata object which replaces the default one wholly. -/
structure MetaDict where
  version : Option String
  created : Option String
deriving DecidableEq, Repr

/-- In-memory cache_data of SlackCacheManager. The channels dictionary is modelled as
an association list (Python dict updates keep insertion order; new keys append). -/
structure CacheData where
  last_update : Option String
  channels : List (String × ChanEntry)
  messages : List MsgDict
  metadata : MetaDict
deriving DecidableEq, Repr

/-- The default in-memory skeleton built in the SlackCacheManager constructor. -/
def freshSkeleton (created : String) : CacheData :=
  { last_update := none, channels := [], messages := [],
    metadata := { version := some "1.0", created := some created } }

/-- A JSON object read from the cache file: each recognized top-level key may be
absent. The channels and messages values are typed per the documented schema. -/
structure LoadedObj where
  last_update : Option (Option String)
  channels : Option (List (String × ChanEntry))
  messages : Option (List MsgDict)
  metadata : Option MetaDict
deriving DecidableEq, Repr

/-- Possible states of the persisted cache file as seen by load_cache. -/
inductive CacheFile where
  /-- os.path.exists is false. -/
  | missing
  /-- open or read raises IOError. -/
  | unreadable
  /-- json.load raises JSONDecodeError. -/
  | malformed
  /-- json.load succeeds but yields a value that is not a mapping (for example a
  number or a list of non-pairs); dict.update then raises TypeError. -/
  | nonMapping
  /-- json.load yields a JSON object. -/
  | obj (o : LoadedObj)
deriving DecidableEq, Repr

/-- A Python exception escaping to the caller. -/
inductive PyError where
  | typeError
deriving DecidableEq, Repr

/-- Shallow dict.update of the in-memory skeleton with a loaded JSON object: each
top-level key present in the loaded object replaces the corresponding field wholly. -/
def dictUpdate (c : CacheData) (o : LoadedObj) : CacheData :=
  { last_update := o.last_update.getD c.last_update,
    channels := o.channels.getD c.channels,
    messages := o.messages.getD c.messages,
    metadata := o.metadata.getD c.metadata }

/-- SlackCacheManager.load_cache. JSONDecodeError and IOError are caught (the skeleton
is left untouched and the error logged); a missing file keeps the skeleton; a file
whose JSON value is not a mapping makes dict.update raise TypeError, which is not in
the caught exception tuple and escapes to the caller. -/
def load_cache (c : CacheData) (file : CacheFile) : Except PyError CacheData :=
  match file with
  | .missing => .ok c
  | .unreadable => .ok c
  | .malformed => .ok c
  | .nonMapping => .error .typeError
  | .obj o => .ok (dictUpdate c o)

/-- SlackCacheManager.save_cache: stamps last_update to the current time and writes the
whole structure. The write is modelled as succeeding; the result is the written file
together with the mutated in-memory state. -/
def save_cache (c : CacheData) (now : String) : CacheFile × CacheData :=
  let c2 := { c with last_update := some now }
  (.obj { last_update := some c2.last_update, channels := some c2.channels,
          messages := some c2.messages, metadata := some c2.metadata }, c2)

/-- SlackCacheManager.get_channel_last_fetch. -/
def get_channel_last_fetch (c : CacheData) (cid : String) : Option String :=
  match List.lookup cid c.channels with
  | some info => some info.last_fetch
  | none => none

/-- SlackCacheManager.get_channel_last_message_ts. -/
def get_channel_last_message_ts (c : CacheData) (cid : String) : Option String :=
  match List.lookup cid c.channels with
  | some info => info.last_message_ts
  | none => none

/-- The in-place mutation applied to an existing channel entry by
SlackCacheManager.update_channel_info: last_fetch is refreshed and the watermark is
overwritten only when the supplied value is truthy (non-None, non-empty). -/
def updEntry (last_message_ts : Option String) (now : String) (e : ChanEntry) : ChanEntry :=
  let ts2 := if truthyStrOpt last_message_ts then last_message_ts else e.last_message_ts
  { e with last_fetch := now, last_message_ts := ts2 }

/-- SlackCacheManager.update_channel_info. For a new channel an entry is created with
the supplied watermark as is; for an existing channel the entry is mutated by
updEntry. -/
def update_channel_info (c : CacheData) (cid channel_name : String)
    (last_message_ts : Option String) (now : String) : CacheData :=
  match List.lookup cid c.channels with
  | none =>
    { c with channels := c.channels ++
        [(cid, { name := channel_name, last_fetch := now, last_message_ts := last_message_ts })] }
  | some _ =>
    { c with channels := c.channels.map (fun p =>
        if p.1 = cid then (p.1, updEntry last_message_ts now p.2) else p) }

/-- SlackCacheManager.add_messages. -/
def add_messages (c : CacheData) (msgs : List MsgDict) : CacheData :=
  { c with messages := c.messages ++ msgs }

/-- SlackCacheManager.get_cached_messages with its optional channel and lower-bound
timestamp filters (both guarded by Python truthiness). -/
def get_cached_messages (c : CacheData) (channel_id since_ts : Option String) :
    List MsgDict :=
  let ms1 := if truthyStrOpt channel_id then
      c.messages.filter (fun m => m.channel_id == channel_id)
    else c.messages
  if truthyStrOpt since_ts then
    ms1.filter (fun m => pyStrLt (since_ts.getD "") (m.timestamp.getD "0"))
  else ms1

/-- The cutoff string str(time.time() - older_than_days * 24 * 60 * 60) computed in
SlackCacheManager.remove_old_messages. Time is modelled at a whole second nowSec, so
the Python float renders as the decimal integer followed by ".0". -/
def pruneCutoff (nowSec : Int) (older_than_days : Nat) : String :=
  toString (nowSec - older_than_days * 86400) ++ ".0"

/-- SlackCacheManager.remove_old_messages: keeps exactly the messages whose timestamp
string (defaulting to "0") compares greater than the cutoff string under the Python
string comparison. -/
def remove_old_messages (c : CacheData) (nowSec : Int) (older_than_days : Nat) :
    CacheData :=
  let cutoff := pruneCutoff nowSec older_than_days
  { c with messages := c.messages.filter (fun m => pyStrLt cutoff (m.timestamp.getD "0")) }

/-- SlackCacheManager.merge_with_existing_messages: drops incoming messages whose id is
already present in the cache, then appends the survivors (when any). -/
def merge_with_existing_messages (c : CacheData) (new_messages : List MsgDict) :
    CacheData :=
  let existing_ids := c.messages.map (fun m => m.id)
  let unique_new := new_messages.filter (fun m => !(existing_ids.contains m.id))
  if unique_new.isEmpty then c else add_messages c unique_new

/-- A raw message record returned by the Slack API (conversations_history or
conversations_replies). A None field models an absent key. -/
structure RawMsg where
  user : Option String
  text : Option String
  type : Option String
  subtype : Option String
  thread_ts : Option String
  ts : Option String
  reply_count : Option Nat
  reactions : Option (List OpaqueRec)
  attachments : Option (List OpaqueRec)
deriving DecidableEq, Repr

/-- An error raised by the Slack client (SlackApiError). -/
inductive ApiErr where
  | slackApiError
deriving DecidableEq, Repr

/-- SlackDataExtractor parse_message. Records with administrative subtypes are dropped.
A message counts as a thread parent when its thread_ts is truthy and equal to its own
ts, or when its reply_count is positive. -/
def parse_message (load_users : Bool) (users : List (String × String)) (raw : RawMsg)
    (channel_id channel_name : String) : Option Message :=
  let user_id := raw.user.getD ""
  let username :=
    if load_users then
      let u := if user_id != "" then (List.lookup user_id users).getD user_id else "Unknown"
      if u != "" then u else "Unknown"
    else
      if user_id != "" then "user_" ++ user_id.take 8 else "Unknown"
  let text0 := raw.text.getD ""
  let text := if text0 == "" && raw.subtype == some "bot_message" then raw.text.getD "" else text0
  if raw.subtype == some "channel_join" || raw.subtype == some "channel_leave" ||
     raw.subtype == some "channel_archive" then
    none
  else
    let ts := raw.ts.getD ""
    let reply_count := raw.reply_count.getD 0
    let is_parent := (truthyStrOpt raw.thread_ts && raw.thread_ts == some ts) ||
      decide (0 < reply_count)
    some { id := ts, channel_id := channel_id, channel_name := channel_name,
           user_id := user_id, username := username, timestamp := ts, text := text,
           message_type := raw.type.getD "message", subtype := raw.subtype,
           thread_ts := raw.thread_ts, is_thread_parent := is_parent,
           reply_count := reply_count, reactions := raw.reactions.getD [],
           attachments := raw.attachments.getD [] }

/-- SlackDataExtractor extract_thread_replies: fetches one page of thread replies,
skips the record whose ts equals the parent timestamp, and parses the rest. A
SlackApiError from the remote call is caught inside: the reply list collected so far
(empty, since the call is the first statement of the guarded block) is returned. -/
def extract_thread_replies (load_users : Bool) (users : List (String × String))
    (channelNames : List (String × String))
    (replies : String → String → Except ApiErr (List RawMsg))
    (channel_id thread_ts : String) : List Message :=
  match replies channel_id thread_ts with
  | .error _ => []
  | .ok raws =>
    let channel_name := (List.lookup channel_id channelNames).getD "unknown"
    raws.foldl (fun acc raw =>
      if raw.ts != some thread_ts then
        match parse_message load_users users raw channel_id channel_name with
        | some m => acc ++ [m]
        | none => acc
      else acc) []

/-- The latest_ts tracking step of extract_channel_messages: the watermark candidate is
replaced when it is unset (None or empty, Python falsy) or when the new top-level
message timestamp compares greater. -/
def latestUpd (l : Option String) (t : String) : Option String :=
  match l with
  | none => some t
  | some s => if s == "" || pyStrLt s t then some t else some s

/-- The per-record body of the history loop in extract_channel_messages: parse the raw
record, append it, update latest_ts from its timestamp, and, when it is a thread
parent, append the fetched thread replies (which do not feed latest_ts). -/
def historyStep (load_users : Bool) (users : List (String × String))
    (channelNames : List (String × String))
    (replies : String → String → Except ApiErr (List RawMsg)) (channel_id channel_name : String)
    (acc : List Message × Option String) (raw : RawMsg) : List Message × Option String :=
  match parse_message load_users users raw channel_id channel_name with
  | none => acc
  | some m =>
    let latest := latestUpd acc.2 m.timestamp
    let withMsg := acc.1 ++ [m]
    let withThread :=
      if m.is_thread_parent then
        withMsg ++ extract_thread_replies load_users users channelNames replies channel_id m.timestamp
      else withMsg
    (withThread, latest)

/-- SlackDataExtractor get_cached_channel_messages: the cached dicts of one channel,
converted back to Message values. -/
def get_cached_channel_messages (use_cache : Bool) (c : CacheData) (channel_id : String) :
    List Message :=
  if use_cache then
    (get_cached_messages c (some channel_id) none).map msgOfDict
  else []

/-- SlackDataExtractor extract_channel_messages: per-channel sync. The remote history
collaborator receives the page limit and the optional oldest watermark; on a
SlackApiError from it the function falls back to the cached messages and leaves the
cache untouched. Otherwise the raw records are parsed and threads expanded, and the
outcome is applied in append, retain or replace mode, updating the cache and the
channel watermark as in the source. Returns the message list together with the
resulting cache state. -/
def extract_channel_messages (load_users : Bool) (users : List (String × String))
    (channelNames : List (String × String)) (use_cache : Bool) (cache : CacheData)
    (history : Nat → Option String → Except ApiErr (List RawMsg))
    (replies : String → String → Except ApiErr (List RawMsg))
    (channel_id : String) (limit : Nat) (force_refresh : Bool) (now : String) :
    List Message × CacheData :=
  let channel_name := (List.lookup channel_id channelNames).getD "unknown"
  let cached_messages :=
    if use_cache && !force_refresh then get_cached_channel_messages use_cache cache channel_id
    else []
  let oldest : Option String :=
    if use_cache && !force_refresh && !cached_messages.isEmpty then
      match get_channel_last_message_ts cache channel_id with
      | some s => if s != "" then some s else none
      | none => none
    else none
  match history limit oldest with
  | .error _ => (cached_messages, cache)
  | .ok raws =>
    let res := raws.foldl
      (historyStep load_users users channelNames replies channel_id channel_name) ([], none)
    let new_messages := res.1
    let latest_ts := res.2
    if oldest.isSome && !new_messages.isEmpty then
      let c2 :=
        if use_cache then
          update_channel_info
            (merge_with_existing_messages cache (new_messages.map asdictMsg))
            channel_id channel_name latest_ts now
        else cache
      (cached_messages ++ new_messages, c2)
    else if oldest.isSome && new_messages.isEmpty then
      let c2 :=
        if use_cache then
          update_channel_info cache channel_id channel_name
            (get_channel_last_message_ts cache channel_id) now
        else cache
      (cached_messages, c2)
    else
      let c2 :=
        if use_cache then
          let c1 := { cache with
            messages := cache.messages.filter (fun m => !(m.channel_id == some channel_id)) }
          update_channel_info (add_messages c1 (new_messages.map asdictMsg))
            channel_id channel_name latest_ts now
        else cache
      (new_messages, c2)

/-- Outcome of one fetch attempt for a channel inside the retry loop of main. The
rate-limit case carries the retry-after header as parsed by the source (None models
an absent or unparseable header, which the source replaces by current_delay). -/
inductive AttemptOutcome where
  | ok (msgs : List Message)
  | rateLimited (retryAfter : Option Nat)
  | apiError
  | unexpectedError
deriving Repr

/-- Result of the retry loop of main for one channel: whether a fetch succeeded, how
many attempts were made, the sleeps performed (in seconds, in order), and the
messages obtained from the successful attempt. -/
structure LoopResult where
  success : Bool
  attempts : Nat
  sleeps : List Nat
  messages : List Message
deriving DecidableEq, Repr

/-- The while loop of main for one channel (delays in whole seconds, as the source uses
integral float constants): while retry_count is at most max_retries and no success,
attempt a fetch; on a rate limit, increment the retry counter, wait
max(retry_after * 2, current_delay * 2) with retry_after defaulting to current_delay,
and double current_delay capped at max_delay; on any other error, stop. -/
def channelLoop (attempt : Nat → AttemptOutcome) (max_retries max_delay : Nat) :
    Nat → Nat → Nat → List Nat → LoopResult
  | retry_count, current_delay, n, sleeps =>
    if _h : retry_count ≤ max_retries then
      match attempt n with
      | .ok msgs => { success := true, attempts := n + 1, sleeps := sleeps, messages := msgs }
      | .rateLimited ra =>
        let retry_after := ra.getD current_delay
        let wait := max (retry_after * 2) (current_delay * 2)
        channelLoop attempt max_retries max_delay (retry_count + 1)
          (min (current_delay * 2) max_delay) (n + 1) (sleeps ++ [wait])
      | .apiError => { success := false, attempts := n + 1, sleeps := sleeps, messages := [] }
      | .unexpectedError =>
        { success := false, attempts := n + 1, sleeps := sleeps, messages := [] }
    else { success := false, attempts := n, sleeps := sleeps, messages := [] }
termination_by retry_count => max_retries + 1 - retry_count
decreasing_by omega

/-- One channel of the main processing loop, under the conditions of the rate-limit
scenario (no sufficiently recent cache entry, so every attempt reaches the remote):
run the retry loop with base_delay 10, max_delay 120 and max_retries 2, and fall back
to the cached channel messages when no attempt succeeded. -/
def processChannel (attempt : Nat → AttemptOutcome) (cached : List Message) :
    LoopResult × List Message :=
  let r := channelLoop attempt 2 120 0 10 0 []
  (r, if r.success then r.messages else cached)

/-- parsedOf lu us raws cid cn: the list of Message values obtained by running
parse_message over a page of raw history records (records rejected by the
normalizer are dropped). -/
def parsedOf (lu : Bool) (us : List (String × String)) (raws : List RawMsg)
    (cid cn : String) : List Message :=
  raws.filterMap (fun r => parse_message lu us r cid cn)

/-- Shorthand for a cached message dict holding only id, channel_id and timestamp. -/
def mkMsgDict (i ch ts : Option String) : MsgDict :=
  { id := i, channel_id := ch, channel_name := none, user_id := none, username := none,
    timestamp := ts, text := none, message_type := none, subtype := none, thread_ts := none,
    is_thread_parent := none, reply_count := none, reactions := none, attachments := none }

/-- Shorthand for a raw Slack record holding only ts, thread_ts and reply_count. -/
def mkRawTs (ts tts : Option String) (rc : Option Nat) : RawMsg :=
  { user := none, text := none, type := none, subtype := none, thread_ts := tts, ts := ts,
    reply_count := rc, reactions := none, attachments := none }

/-- A raw record at timestamp 1.0 that is a thread parent (one reply). -/
def rawParentW : RawMsg := mkRawTs (some "1.0") none (some 1)

/-- A raw thread reply at timestamp 2.0 whose parent is the 1.0 record. -/
def rawReplyW : RawMsg := mkRawTs (some "2.0") (some "1.0") none

/-- A raw record whose thread_ts differs from its own ts and whose reply_count is 3. -/
def rawDiffThreadW : RawMsg := mkRawTs (some "6.0") (some "5.0") (some 3)

/-- A raw record whose thread_ts equals its own ts. -/
def rawSelfThreadW : RawMsg := mkRawTs (some "7.0") (some "7.0") none

/-- A plain raw record at a given timestamp: no thread, no replies. -/
def rawPlainW (t : String) : RawMsg := mkRawTs (some t) none none

/-- The five non-threaded raw records of Scenario A, timestamps 1.1 through 1.5. -/
def rawsScenarioA : List RawMsg :=
  [rawPlainW "1.1", rawPlainW "1.2", rawPlainW "1.3", rawPlainW "1.4", rawPlainW "1.5"]

/-- Concrete cached message dicts. -/
def d1W : MsgDict := mkMsgDict (some "m1") (some "C") (some "1.0")

/-- A second cached message dict with a distinct id. -/
def d2W : MsgDict := mkMsgDict (some "m2") (some "C") (some "2.0")

/-- A cached message dict whose timestamp is numerically ancient but lexicographically
large. -/
def m999W : MsgDict := mkMsgDict (some "m9") (some "C") (some "999.5")

/-- Concrete channel bookkeeping entries. -/
def entryW : ChanEntry :=
  { name := "general", last_fetch := "2024-01-01T00:00:00", last_message_ts := some "1.0" }

/-- A second concrete channel entry. -/
def entryW2 : ChanEntry :=
  { name := "random", last_fetch := "2024-01-01T00:00:00", last_message_ts := none }

/-- A cache holding two channel entries and one message. -/
def cacheTwoChansW : CacheData :=
  { last_update := none, channels := [("C1", entryW), ("C2", entryW2)], messages := [d1W],
    metadata := { version := some "1.0", created := some "2024-01-01T00:00:00" } }

/-- A loaded JSON object with every recognized top-level key absent. -/
def objAbsentW : LoadedObj :=
  { last_update := none, channels := none, messages := none, metadata := none }

theorem pyStrLtAux_irrefl : ∀ l, pyStrLtAux l l = false
  | [] => rfl
  | a :: as => by simp [pyStrLtAux, pyStrLtAux_irrefl as]

theorem pyStrLtAux_to_nil : ∀ l, pyStrLtAux l [] = false
  | [] => rfl
  | _ :: _ => rfl

theorem pyStrLtAux_trans : ∀ a b c, pyStrLtAux a b = true → pyStrLtAux b c = true →
    pyStrLtAux a c = true := by
  intro a
  induction a with
  | nil =>
    intro b c h1 h2
    cases c with
    | nil => rw [pyStrLtAux_to_nil] at h2; exact absurd h2 (by simp)
    | cons z zs => rfl
  | cons x xs ih =>
    intro b c h1 h2
    cases b with
    | nil => rw [pyStrLtAux_to_nil] at h1; exact absurd h1 (by simp)
    | cons y ys =>
      cases c with
      | nil => rw [pyStrLtAux_to_nil] at h2; exact absurd h2 (by simp)
      | cons z zs =>
        simp only [pyStrLtAux] at h1 h2 ⊢
        by_cases hxy : x < y
        · by_cases hyz : y < z
          · simp [lt_trans hxy hyz]
          · by_cases hzy : z < y
            · simp [hyz, hzy] at h2
            · have hyz2 : y = z := le_antisymm (not_lt.mp hzy) (not_lt.mp hyz)
              subst hyz2
              simp [hxy]
        · by_cases hyx : y < x
          · simp [hxy, hyx] at h1
          · have hxy2 : x = y := le_antisymm (not_lt.mp hyx) (not_lt.mp hxy)
            subst hxy2
            simp [lt_irrefl] at h1
            by_cases hxz : x < z
            · simp [hxz]
            · by_cases hzx : z < x
              · simp [hxz, hzx] at h2
              · simp [hxz, hzx] at h2 ⊢
                exact ih ys zs h1 h2

theorem pyStrLtAux_ge_trans : ∀ a b c, pyStrLtAux a b = false → pyStrLtAux b c = false →
    pyStrLtAux a c = false := by
  intro a
  induction a with
  | nil =>
    intro b c h1 h2
    cases c with
    | nil => exact pyStrLtAux_to_nil []
    | cons z zs =>
      cases b with
      | nil => simp [pyStrLtAux] at h2
      | cons y ys => simp [pyStrLtAux] at h1
  | cons x xs ih =>
    intro b c h1 h2
    cases c with
    | nil => exact pyStrLtAux_to_nil _
    | cons z zs =>
      cases b with
      | nil => simp [pyStrLtAux] at h2
      | cons y ys =>
        simp only [pyStrLtAux] at h1 h2 ⊢
        by_cases hxy : x < y
        · simp [hxy] at h1
        · by_cases hyz : y < z
          · simp [hyz] at h2
          · have hzy : z ≤ y := not_lt.mp hyz
            have hyx : y ≤ x := not_lt.mp hxy
            have hxz : ¬ x < z := fun h => absurd (lt_of_lt_of_le (lt_of_lt_of_le h hzy) hyx)
              (lt_irrefl x)
            simp only [if_neg hxz]
            by_cases hzx : z < x
            · simp [hzx]
            · simp only [if_neg hzx]
              have hxz2 : x = z := le_antisymm (not_lt.mp hzx) (le_trans hzy hyx)
              by_cases hyx2 : y < x
              · exact absurd (lt_of_le_of_lt (le_trans (le_of_eq hxz2) hzy) hyx2) (lt_irrefl x)
              · have hxy2 : x = y := le_antisymm (not_lt.mp hyx2) hyx
                by_cases hzy2 : z < y
                · exact absurd (lt_of_lt_of_le hzy2 hyx) hzx
                · simp only [if_neg hxy, if_neg hyx2] at h1
                  simp only [if_neg hyz, if_neg hzy2] at h2
                  exact ih ys zs h1 h2

theorem pyStrLt_irrefl (s : String) : pyStrLt s s = false := pyStrLtAux_irrefl s.data

theorem pyStrLt_to_empty (s : String) : pyStrLt s "" = false := pyStrLtAux_to_nil s.data

theorem pyStrLt_trans (a b c : String) (h1 : pyStrLt a b = true) (h2 : pyStrLt b c = true) :
    pyStrLt a c = true := pyStrLtAux_trans a.data b.data c.data h1 h2

theorem pyStrLt_ge_trans (a b c : String) (h1 : pyStrLt a b = false)
    (h2 : pyStrLt b c = false) : pyStrLt a c = false :=
  pyStrLtAux_ge_trans a.data b.data c.data h1 h2

theorem foldl_latestUpd_some : ∀ (ts : List String) (M0 : String),
    ∃ M, List.foldl latestUpd (some M0) ts = some M ∧ (M = M0 ∨ M ∈ ts) ∧
      pyStrLt M M0 = false ∧ ∀ t ∈ ts, pyStrLt M t = false
  | [], M0 =>
    ⟨M0, rfl, Or.inl rfl, pyStrLt_irrefl M0, by intro t ht; exact absurd ht (List.not_mem_nil t)⟩
  | t :: ts, M0 => by
    by_cases hcond : (M0 == "" || pyStrLt M0 t) = true
    · obtain ⟨M, hfold, hmem, hget, hall⟩ := foldl_latestUpd_some ts t
      have hstep : latestUpd (some M0) t = some t := by simp [latestUpd, hcond]
      refine ⟨M, ?_, ?_, ?_, ?_⟩
      · rw [List.foldl_cons, hstep, hfold]
      · rcases hmem with h | h
        · exact Or.inr (h ▸ List.mem_cons_self t ts)
        · exact Or.inr (List.mem_cons_of_mem t h)
      · rcases Bool.or_eq_true_iff.mp hcond with h | h
        · have hM0 : M0 = "" := by simpa using h
          rw [hM0]
          exact pyStrLt_to_empty M
        · cases hMM0 : pyStrLt M M0 with
          | false => rfl
          | true => exact absurd (pyStrLt_trans M M0 t hMM0 h) (by simp [hget])
      · intro u hu
        rcases List.mem_cons.mp hu with h | h
        · exact h ▸ hget
        · exact hall u h
    · obtain ⟨M, hfold, hmem, hget, hall⟩ := foldl_latestUpd_some ts M0
      have hcondf : (M0 == "" || pyStrLt M0 t) = false := by
        cases hb : (M0 == "" || pyStrLt M0 t) with
        | false => rfl
        | true => exact absurd hb hcond
      have hstep : latestUpd (some M0) t = some M0 := by
        simp [latestUpd, hcondf]
      refine ⟨M, ?_, ?_, hget, ?_⟩
      · rw [List.foldl_cons, hstep, hfold]
      · rcases hmem with h | h
        · exact Or.inl h
        · exact Or.inr (List.mem_cons_of_mem t h)
      · intro u hu
        have hparts := Bool.or_eq_false_iff.mp hcondf
        rcases List.mem_cons.mp hu with h | h
        · rw [h]
          exact pyStrLt_ge_trans M M0 t hget hparts.2
        · exact hall u h

theorem foldl_latestUpd_none (ts : List String) (h : ts ≠ []) :
    ∃ M, List.foldl latestUpd none ts = some M ∧ M ∈ ts ∧ ∀ t ∈ ts, pyStrLt M t = false := by
  cases ts with
  | nil => exact absurd rfl h
  | cons t ts =>
    obtain ⟨M, hfold, hmem, hget, hall⟩ := foldl_latestUpd_some ts t
    refine ⟨M, ?_, ?_, ?_⟩
    · rw [List.foldl_cons]
      exact hfold
    · rcases hmem with h | h
      · exact h ▸ List.mem_cons_self t ts
      · exact List.mem_cons_of_mem t h
    · intro u hu
      rcases List.mem_cons.mp hu with h | h
      · exact h ▸ hget
      · exact hall u h

theorem lookup_map_keyfix {β : Type} (cid : String) (f : β → β) :
    ∀ (l : List (String × β)),
      List.lookup cid (l.map (fun p => if p.1 = cid then (p.1, f p.2) else p)) =
        (List.lookup cid l).map f
  | [] => rfl
  | (k, v) :: l => by
    have ih := lookup_map_keyfix cid f l
    simp only [List.map_cons]
    by_cases hk : k = cid
    · have h1 : (if (k, v).1 = cid then ((k, v).1, f (k, v).2) else (k, v)) = (k, f v) := by
        simp [hk]
      rw [h1]
      have hbe : (cid == k) = true := by simp [hk]
      simp [List.lookup, hbe, ih]
    · have h1 : (if (k, v).1 = cid then ((k, v).1, f (k, v).2) else (k, v)) = (k, v) := by
        simp [hk]
      rw [h1]
      have hbe : (cid == k) = false := by simp [Ne.symm hk]
      simp [List.lookup, hbe, ih]

theorem lookup_map_keyfix_ne {β : Type} (cid k : String) (hk : k ≠ cid) (f : β → β) :
    ∀ (l : List (String × β)),
      List.lookup k (l.map (fun p => if p.1 = cid then (p.1, f p.2) else p)) =
        List.lookup k l
  | [] => rfl
  | (k2, v) :: l => by
    have ih := lookup_map_keyfix_ne cid k hk f l
    simp only [List.map_cons]
    by_cases hk2 : k2 = cid
    · have h1 : (if (k2, v).1 = cid then ((k2, v).1, f (k2, v).2) else (k2, v)) = (k2, f v) := by
        simp [hk2]
      rw [h1]
      have hbe : (k == k2) = false := by
        subst hk2
        simp [hk]
      simp [List.lookup, hbe, ih]
    · have h1 : (if (k2, v).1 = cid then ((k2, v).1, f (k2, v).2) else (k2, v)) = (k2, v) := by
        simp [hk2]
      rw [h1]
      rcases hbe : (k == k2) with _ | _ <;> simp [List.lookup, hbe, ih]

theorem lookup_append_single {β : Type} (cid : String) (e : β) :
    ∀ (l : List (String × β)), List.lookup cid l = none →
      List.lookup cid (l ++ [(cid, e)]) = some e
  | [], _ => by simp [List.lookup]
  | (k, v) :: l, h => by
    rcases hek : (cid == k) with _ | _
    · simp only [List.lookup, hek] at h
      simp [List.cons_append, List.lookup, hek, lookup_append_single cid e l h]
    · simp [List.lookup, hek] at h

theorem update_channel_info_messages (c : CacheData) (cid name : String)
    (lmt : Option String) (now : String) :
    (update_channel_info c cid name lmt now).messages = c.messages := by
  unfold update_channel_info
  cases List.lookup cid c.channels <;> rfl

theorem update_channel_info_watermark (c : CacheData) (cid name : String)
    (lmt : Option String) (now : String) (htr : truthyStrOpt lmt = true) :
    get_channel_last_message_ts (update_channel_info c cid name lmt now) cid = lmt := by
  unfold update_channel_info get_channel_last_message_ts
  cases hl : List.lookup cid c.channels with
  | none =>
    simp only
    rw [lookup_append_single cid _ c.channels hl]
  | some e =>
    simp only
    rw [lookup_map_keyfix cid (updEntry lmt now) c.channels, hl]
    simp [updEntry, htr]

theorem merge_messages_eq (c : CacheData) (new : List MsgDict) :
    (merge_with_existing_messages c new).messages =
      c.messages ++ new.filter
        (fun m => !((c.messages.map (fun x => x.id)).contains m.id)) := by
  simp only [merge_with_existing_messages]
  rcases hu : (new.filter (fun m => !((c.messages.map (fun x => x.id)).contains m.id))).isEmpty
    with _ | _
  · rw [if_neg (by rw [hu]; exact Bool.false_ne_true)]
    rfl
  · rw [if_pos hu, List.isEmpty_iff.mp hu, List.append_nil]

/-- C3 counterexample: merging a batch that contains the same message twice into an
empty cache stores it twice, so the cached sequence has two entries with the same
id. The claim, that after every merge call and for every prior state and batch the
cached sequence has no duplicate ids, is therefore false. -/
theorem c3_counterexample :
    ¬ List.Pairwise (fun a b => a.id ≠ b.id)
        (merge_with_existing_messages (freshSkeleton "2024-01-01T00:00:00")
          [d1W, d1W]).messages := by
  decide

/-- C3 amended: merge deduplicates only against the ids already cached before the
call, so the no-duplicate invariant holds after every merge whose prior cached
sequence has pairwise distinct ids and whose batch has pairwise distinct ids. -/
theorem c3_merge_distinct_ids (c : CacheData) (new : List MsgDict)
    (h1 : c.messages.Pairwise (fun a b => a.id ≠ b.id))
    (h2 : new.Pairwise (fun a b => a.id ≠ b.id)) :
    (merge_with_existing_messages c new).messages.Pairwise (fun a b => a.id ≠ b.id) := by
  rw [merge_messages_eq, List.pairwise_append]
  refine ⟨h1, List.Pairwise.filter _ h2, ?_⟩
  intro a ha b hb he
  have hb2 := (List.mem_filter.mp hb).2
  have hnc : b.id ∉ c.messages.map (fun x => x.id) := by
    simpa using hb2
  exact hnc (he ▸ List.mem_map_of_mem (fun x => x.id) ha)

/-- C3 witness: merging two fresh messages with distinct ids into the empty skeleton
yields a duplicate-free cached sequence. -/
theorem c3_merge_distinct_ids_witness :
    (merge_with_existing_messages (freshSkeleton "2024-01-01T00:00:00")
      [d1W, d2W]).messages.Pairwise (fun a b => a.id ≠ b.id) :=
  c3_merge_distinct_ids (freshSkeleton "2024-01-01T00:00:00") [d1W, d2W]
    (by decide) (by decide)

/-- C4: merging the identical batch twice yields the same cache state as merging it
once, for every prior cache state and every batch: after the first merge each id of
the batch is present in the cache, so the second merge filters everything out and
leaves the state unchanged. -/
theorem c4_merge_idempotent (c : CacheData) (new : List MsgDict) :
    merge_with_existing_messages (merge_with_existing_messages c new) new =
      merge_with_existing_messages c new := by
  have hfil : new.filter
      (fun m => !(((merge_with_existing_messages c new).messages.map
        (fun x => x.id)).contains m.id)) = [] := by
    rw [List.filter_eq_nil_iff]
    intro m hm
    simp only [Bool.not_eq_true', Bool.not_eq_false]
    have hmem : m.id ∈ (merge_with_existing_messages c new).messages.map (fun x => x.id) := by
      rw [merge_messages_eq, List.map_append]
      by_cases hc : m.id ∈ c.messages.map (fun x => x.id)
      · exact List.mem_append_left _ hc
      · refine List.mem_append_right _ ?_
        refine List.mem_map_of_mem (fun (x : MsgDict) => x.id) ?_
        rw [List.mem_filter]
        refine ⟨hm, ?_⟩
        simpa using hc
    simpa using hmem
  conv_lhs => rw [merge_with_existing_messages]
  rw [hfil]
  rfl

/-- C5: the prune cutoff is compared against message timestamps as strings, not as
numbers. At the failing input (one cached message with timestamp 999.5, current time
1700000000 seconds, older_than_days 0) the message numerically predates the cutoff
and the claim requires prune(0) to empty the list, yet the code keeps it because the
string 999.5 compares greater than the string 1700000000.0. -/
theorem c5_prune_lexicographic_bug :
    (remove_old_messages (add_messages (freshSkeleton "2024-01-01T00:00:00") [m999W])
        1700000000 0).messages = [m999W]
    ∧ pruneCutoff 1700000000 0 = "1700000000.0"
    ∧ pyStrLt "1700000000.0" "999.5" = true := by
  refine ⟨by decide, by decide, by decide⟩

/-- C8 counterexample: a cache file holding valid JSON that is not a mapping (for
example the number 5) makes load raise a TypeError from dict.update, which is not in
the caught exception tuple; the claim that load never raises to its caller is false. -/
theorem c8_counterexample :
    load_cache (freshSkeleton "2024-01-01T00:00:00") CacheFile.nonMapping =
      Except.error PyError.typeError := rfl

/-- C8 amended: load fails soft on a missing, unreadable or unparseable file, leaving
the skeleton untouched; when the file parses to a JSON object the object is overlaid
shallowly, so each recognized top-level field absent from the file keeps its default
value (a present-but-partial nested object replaces the nested defaults wholly); only
a valid-JSON non-mapping file makes load raise. -/
theorem c8_load_fails_soft (c : CacheData) (o : LoadedObj) :
    load_cache c CacheFile.missing = Except.ok c
    ∧ load_cache c CacheFile.unreadable = Except.ok c
    ∧ load_cache c CacheFile.malformed = Except.ok c
    ∧ load_cache c (CacheFile.obj o) = Except.ok (dictUpdate c o)
    ∧ (o.last_update = none → (dictUpdate c o).last_update = c.last_update)
    ∧ (o.channels = none → (dictUpdate c o).channels = c.channels)
    ∧ (o.messages = none → (dictUpdate c o).messages = c.messages)
    ∧ (o.metadata = none → (dictUpdate c o).metadata = c.metadata) := by
  refine ⟨rfl, rfl, rfl, rfl, ?_, ?_, ?_, ?_⟩ <;> intro h <;> simp [dictUpdate, h]

/-- C8 witness: the amended load contract evaluated on the default skeleton and a
loaded object with every recognized key absent. -/
theorem c8_load_fails_soft_witness :
    load_cache (freshSkeleton "2024-01-01T00:00:00") CacheFile.missing =
      Except.ok (freshSkeleton "2024-01-01T00:00:00")
    ∧ (dictUpdate (freshSkeleton "2024-01-01T00:00:00") objAbsentW).last_update =
      (freshSkeleton "2024-01-01T00:00:00").last_update
    ∧ (dictUpdate (freshSkeleton "2024-01-01T00:00:00") objAbsentW).channels =
      (freshSkeleton "2024-01-01T00:00:00").channels
    ∧ (dictUpdate (freshSkeleton "2024-01-01T00:00:00") objAbsentW).messages =
      (freshSkeleton "2024-01-01T00:00:00").messages
    ∧ (dictUpdate (freshSkeleton "2024-01-01T00:00:00") objAbsentW).metadata =
      (freshSkeleton "2024-01-01T00:00:00").metadata :=
  ⟨(c8_load_fails_soft (freshSkeleton "2024-01-01T00:00:00") objAbsentW).1,
   (c8_load_fails_soft (freshSkeleton "2024-01-01T00:00:00") objAbsentW).2.2.2.2.1 rfl,
   (c8_load_fails_soft (freshSkeleton "2024-01-01T00:00:00") objAbsentW).2.2.2.2.2.1 rfl,
   (c8_load_fails_soft (freshSkeleton "2024-01-01T00:00:00") objAbsentW).2.2.2.2.2.2.1 rfl,
   (c8_load_fails_soft (freshSkeleton "2024-01-01T00:00:00") objAbsentW).2.2.2.2.2.2.2 rfl⟩

/-- C9: save stamps last_update to the save time and writes the whole structure; a
fresh store constructed from the default skeleton that loads the written file
reproduces the same channels mapping, message sequence and metadata, with
last_update equal to the save time. The model represents the file as a keyed record,
so the result is independent of on-disk key ordering by construction. -/
theorem c9_save_load_round_trip (c : CacheData) (now created : String) :
    load_cache (freshSkeleton created) (save_cache c now).1 =
      Except.ok { c with last_update := some now }
    ∧ (save_cache c now).2 = { c with last_update := some now } :=
  ⟨rfl, rfl⟩

/-- C10: for a channel entry already present, update_channel_info changes only that
entry, keeping its stored name; entries of other channels, the message list,
last_update and metadata are untouched, and when no watermark is supplied the stored
watermark is also untouched. -/
theorem c10_update_channel_info_frame (c : CacheData) (cid name : String)
    (lmt : Option String) (now : String) (e : ChanEntry) (k : String) (hk : k ≠ cid)
    (h : List.lookup cid c.channels = some e) :
    ((List.lookup cid (update_channel_info c cid name lmt now).channels).map ChanEntry.name
      = some e.name)
    ∧ List.lookup k (update_channel_info c cid name lmt now).channels =
        List.lookup k c.channels
    ∧ (update_channel_info c cid name lmt now).messages = c.messages
    ∧ (update_channel_info c cid name lmt now).last_update = c.last_update
    ∧ (update_channel_info c cid name lmt now).metadata = c.metadata
    ∧ (lmt = none →
        (List.lookup cid (update_channel_info c cid name lmt now).channels).map
          ChanEntry.last_message_ts = some e.last_message_ts) := by
  unfold update_channel_info
  rw [h]
  simp only
  refine ⟨?_, ?_, trivial, trivial, trivial, ?_⟩
  · rw [lookup_map_keyfix cid (updEntry lmt now) c.channels, h]
    rfl
  · rw [lookup_map_keyfix_ne cid k hk (updEntry lmt now) c.channels]
  · intro hnone
    rw [lookup_map_keyfix cid (updEntry lmt now) c.channels, h]
    simp [updEntry, hnone, truthyStrOpt]

/-- C10 witness: the frame property evaluated on a cache with two channels, updating
the first with no watermark supplied and checking the second is untouched. -/
theorem c10_update_channel_info_frame_witness :
    ((List.lookup "C1" (update_channel_info cacheTwoChansW "C1" "newname" none
        "2024-06-01T00:00:00").channels).map ChanEntry.name = some entryW.name)
    ∧ List.lookup "C2" (update_channel_info cacheTwoChansW "C1" "newname" none
        "2024-06-01T00:00:00").channels = List.lookup "C2" cacheTwoChansW.channels
    ∧ (update_channel_info cacheTwoChansW "C1" "newname" none
        "2024-06-01T00:00:00").messages = cacheTwoChansW.messages
    ∧ (List.lookup "C1" (update_channel_info cacheTwoChansW "C1" "newname" none
        "2024-06-01T00:00:00").channels).map ChanEntry.last_message_ts =
        some entryW.last_message_ts := by
  have h := c10_update_channel_info_frame cacheTwoChansW "C1" "newname" none
    "2024-06-01T00:00:00" entryW "C2" (by decide) (by decide)
  exact ⟨h.1, h.2.1, h.2.2.1, h.2.2.2.2.2 rfl⟩

/-- C7: when the remote signals a rate limit on every attempt, with base delay 10
seconds, max_retries 2 and no retry-after header, the loop makes 3 attempts in total,
that is exactly 2 retries after the initial attempt: a 20 second wait precedes the
first retry and a 40 second wait the second (a final 80 second wait follows the last
failed attempt before the loop gives up), no attempt succeeds, and the channel falls
back to its cached snapshot. -/
theorem c7_rate_limit_exhaustion (cached : List Message) :
    processChannel (fun _ => AttemptOutcome.rateLimited none) cached =
      ({ success := false, attempts := 3, sleeps := [20, 40, 80], messages := [] }, cached) := by
  have h : channelLoop (fun _ => AttemptOutcome.rateLimited none) 2 120 0 10 0 [] =
      { success := false, attempts := 3, sleeps := [20, 40, 80], messages := [] } := by
    rw [channelLoop]
    norm_num
    rw [channelLoop]
    norm_num
    rw [channelLoop]
    norm_num
    rw [channelLoop]
    norm_num
  simp [processChannel, h]

/-- C1 counterexample: with an empty cache, the history fetch succeeds with one thread
parent and the thread-reply fetch raises; the channel sync is not aborted: it returns
the parent (not the empty cached list) and moves the watermark, contradicting the
claim that any remote error during the thread-reply fetch aborts the sync, falls back
to the cache and leaves the watermark unchanged. -/
theorem c1_counterexample :
    (extract_channel_messages false [] [("C", "general")] true
        (freshSkeleton "2024-01-01T00:00:00") (fun _ _ => Except.ok [rawParentW])
        (fun _ _ => Except.error ApiErr.slackApiError) "C" 1000 false
        "2024-01-02T00:00:00").1
      ≠ get_cached_channel_messages true (freshSkeleton "2024-01-01T00:00:00") "C"
    ∧ get_channel_last_message_ts
        (extract_channel_messages false [] [("C", "general")] true
          (freshSkeleton "2024-01-01T00:00:00") (fun _ _ => Except.ok [rawParentW])
          (fun _ _ => Except.error ApiErr.slackApiError) "C" 1000 false
          "2024-01-02T00:00:00").2 "C"
      ≠ get_channel_last_message_ts (freshSkeleton "2024-01-01T00:00:00") "C" := by
  refine ⟨by decide, by decide⟩

/-- C1 amended: an error raised by the remote collaborator during the history fetch
aborts the channel sync: the returned list is exactly the previously cached messages
of the channel and the cache, hence the watermark, is unchanged. An error during a
thread-reply fetch is instead swallowed inside the reply fetcher, which returns an
empty reply list, and does not abort the sync or prevent the watermark update. -/
theorem c1_history_error_falls_back (lu : Bool) (us cns : List (String × String))
    (cache : CacheData) (repl : String → String → Except ApiErr (List RawMsg))
    (cid : String) (limit : Nat) (now tts : String) (e e2 : ApiErr) :
    extract_channel_messages lu us cns true cache (fun _ _ => Except.error e) repl cid
        limit false now = (get_cached_channel_messages true cache cid, cache)
    ∧ extract_thread_replies lu us cns (fun _ _ => Except.error e2) cid tts = [] :=
  ⟨rfl, rfl⟩

/-- C6 counterexample: a record whose thread_ts (5.0) is present and differs from its
own ts (6.0) but whose reply_count is 3 is classified as a thread parent, not as a
reply, contradicting the claim that every such record gets is_thread_parent false. -/
theorem c6_counterexample :
    (parse_message false [] rawDiffThreadW "C" "general").map Message.is_thread_parent
      = some true
    ∧ rawDiffThreadW.thread_ts = some "5.0"
    ∧ rawDiffThreadW.ts = some "6.0"
    ∧ rawDiffThreadW.thread_ts ≠ some (rawDiffThreadW.ts.getD "") := by
  refine ⟨by decide, by decide, by decide, by decide⟩

/-- C6 amended: for every record accepted by the normalizer, is_thread_parent holds iff
the thread_ts is present, non-empty and equal to the record timestamp, or the
reply_count is positive; in particular a record with a present, differing thread_ts is
classified as a reply only when its reply_count is zero. -/
theorem c6_thread_classification (lu : Bool) (us : List (String × String)) (raw : RawMsg)
    (cid cn : String) (hp : (parse_message lu us raw cid cn).isSome = true) :
    ((parse_message lu us raw cid cn).map Message.is_thread_parent = some true ↔
      ((raw.thread_ts = some (raw.ts.getD "") ∧ raw.ts.getD "" ≠ "") ∨
        0 < raw.reply_count.getD 0))
    ∧ (raw.thread_ts ≠ none → raw.thread_ts ≠ some (raw.ts.getD "") →
        raw.reply_count.getD 0 = 0 →
        (parse_message lu us raw cid cn).map Message.is_thread_parent = some false) := by
  by_cases hadm : (raw.subtype == some "channel_join" || raw.subtype == some "channel_leave"
      || raw.subtype == some "channel_archive") = true
  · exfalso
    simp only [parse_message, hadm, if_true, Option.isSome_none] at hp
    exact Bool.false_ne_true hp
  · have hform : (parse_message lu us raw cid cn).map Message.is_thread_parent =
        some ((truthyStrOpt raw.thread_ts && raw.thread_ts == some (raw.ts.getD "")) ||
          decide (0 < raw.reply_count.getD 0)) := by
      simp only [parse_message, if_neg hadm, Option.map_some']
    rw [hform]
    constructor
    · cases hts : raw.thread_ts with
      | none => simp [truthyStrOpt]
      | some t =>
        simp only [truthyStrOpt, Option.some.injEq, Bool.and_eq_true, bne_iff_ne,
          Bool.or_eq_true, beq_iff_eq, decide_eq_true_eq]
        constructor
        · rintro (⟨hne, heq⟩ | hrc)
          · exact Or.inl ⟨heq ▸ rfl, heq ▸ hne⟩
          · exact Or.inr hrc
        · rintro (⟨heq, hne⟩ | hrc)
          · exact Or.inl ⟨by rw [heq]; exact hne, heq⟩
          · exact Or.inr hrc
    · intro h1 h2 h3
      cases hts : raw.thread_ts with
      | none => exact absurd hts h1
      | some t =>
        have htne : t ≠ raw.ts.getD "" := fun he => h2 (hts ▸ he ▸ rfl)
        simp [truthyStrOpt, h3, htne]

/-- C6 witness: the amended classification rule evaluated on a record whose thread_ts
equals its own timestamp. -/
theorem c6_thread_classification_witness :
    (parse_message false [] rawSelfThreadW "C" "general").isSome = true
    ∧ (((parse_message false [] rawSelfThreadW "C" "general").map Message.is_thread_parent
          = some true) ↔
        ((rawSelfThreadW.thread_ts = some (rawSelfThreadW.ts.getD "")
            ∧ rawSelfThreadW.ts.getD "" ≠ "")
          ∨ 0 < rawSelfThreadW.reply_count.getD 0))
    ∧ (rawSelfThreadW.thread_ts ≠ none →
        rawSelfThreadW.thread_ts ≠ some (rawSelfThreadW.ts.getD "") →
        rawSelfThreadW.reply_count.getD 0 = 0 →
        (parse_message false [] rawSelfThreadW "C" "general").map Message.is_thread_parent
          = some false) :=
  ⟨by decide, c6_thread_classification false [] rawSelfThreadW "C" "general" (by decide)⟩

/-- C2 counterexample: on a full fetch of one thread parent (timestamp 1.0) whose
thread reply (timestamp 2.0) is also newly fetched, the stored watermark is 1.0 even
though a newly fetched message of the run has the strictly larger timestamp 2.0: the
watermark is not the maximum over all newly fetched messages of the run. -/
theorem c2_counterexample :
    get_channel_last_message_ts
        (extract_channel_messages false [] [("C", "general")] true
          (freshSkeleton "2024-01-01T00:00:00") (fun _ _ => Except.ok [rawParentW])
          (fun _ _ => Except.ok [rawReplyW]) "C" 1000 false "2024-01-02T00:00:00").2 "C"
      = some "1.0"
    ∧ "2.0" ∈ (extract_channel_messages false [] [("C", "general")] true
          (freshSkeleton "2024-01-01T00:00:00") (fun _ _ => Except.ok [rawParentW])
          (fun _ _ => Except.ok [rawReplyW]) "C" 1000 false "2024-01-02T00:00:00").1.map
          Message.timestamp
    ∧ pyStrLt "1.0" "2.0" = true := by
  refine ⟨by decide, by decide, by decide⟩


theorem foldl_historyStep_snd (lu : Bool) (us cns : List (String × String))
    (repl : String → String → Except ApiErr (List RawMsg)) (cid cn : String) :
    ∀ (raws : List RawMsg) (acc : List Message) (l : Option String),
      (List.foldl (historyStep lu us cns repl cid cn) (acc, l) raws).2 =
        List.foldl latestUpd l ((parsedOf lu us raws cid cn).map Message.timestamp)
  | [], acc, l => by simp [parsedOf]
  | raw :: raws, acc, l => by
    cases hm : parse_message lu us raw cid cn with
    | none =>
      have hstep : historyStep lu us cns repl cid cn (acc, l) raw = (acc, l) := by
        simp [historyStep, hm]
      rw [List.foldl_cons, hstep, foldl_historyStep_snd lu us cns repl cid cn raws acc l]
      simp [parsedOf, List.filterMap_cons, hm]
    | some m =>
      have hstep : ∃ acc2, historyStep lu us cns repl cid cn (acc, l) raw =
          (acc2, latestUpd l m.timestamp) := by
        simp only [historyStep, hm]
        exact ⟨_, rfl⟩
      obtain ⟨acc2, hstep⟩ := hstep
      rw [List.foldl_cons, hstep,
        foldl_historyStep_snd lu us cns repl cid cn raws acc2 (latestUpd l m.timestamp)]
      simp [parsedOf, List.filterMap_cons, hm]

theorem foldl_historyStep_fst_len (lu : Bool) (us cns : List (String × String))
    (repl : String → String → Except ApiErr (List RawMsg)) (cid cn : String) :
    ∀ (raws : List RawMsg) (acc : List Message) (l : Option String),
      acc.length + (parsedOf lu us raws cid cn).length ≤
        (List.foldl (historyStep lu us cns repl cid cn) (acc, l) raws).1.length
  | [], acc, l => by simp [parsedOf]
  | raw :: raws, acc, l => by
    cases hm : parse_message lu us raw cid cn with
    | none =>
      have hstep : historyStep lu us cns repl cid cn (acc, l) raw = (acc, l) := by
        simp [historyStep, hm]
      have ih := foldl_historyStep_fst_len lu us cns repl cid cn raws acc l
      rw [List.foldl_cons, hstep]
      simpa [parsedOf, List.filterMap_cons, hm] using ih
    | some m =>
      have hstep : ∃ tr, historyStep lu us cns repl cid cn (acc, l) raw =
          ((acc ++ [m]) ++ tr, latestUpd l m.timestamp) := by
        simp only [historyStep, hm]
        by_cases hp : m.is_thread_parent = true
        · exact ⟨extract_thread_replies lu us cns repl cid m.timestamp, by simp [hp]⟩
        · exact ⟨[], by simp [hp]⟩
      obtain ⟨tr, hstep⟩ := hstep
      have ih := foldl_historyStep_fst_len lu us cns repl cid cn raws ((acc ++ [m]) ++ tr)
        (latestUpd l m.timestamp)
      rw [List.foldl_cons, hstep]
      have hplen : (parsedOf lu us (raw :: raws) cid cn).length =
          (parsedOf lu us raws cid cn).length + 1 := by
        simp [parsedOf, List.filterMap_cons, hm]
      rw [hplen]
      simp only [List.length_append, List.length_singleton] at ih
      omega

/-- C2 amended: for every sync that ends in append or replace mode (equivalently, for
every run of the extractor in which at least one history record parses, since no new
messages with a watermark present means retain mode), over every cache state, with
thread parents, thread replies and dropped records allowed, the channel watermark
last_message_ts afterwards is the maximum timestamp, under the Python string
comparison used by the source, among the newly fetched top-level history messages
only; thread replies never feed the watermark. The timestamps are required non-empty
(Python truthiness guards the watermark write). In particular Scenario A holds:
from an empty cache, a full fetch of 5 non-threaded messages with timestamps
1.1 < ... < 1.5 leaves the cache holding exactly those 5 messages with watermark 1.5. -/
theorem c2_watermark_top_level_max (lu : Bool) (us cns : List (String × String))
    (cache : CacheData) (repl : String → String → Except ApiErr (List RawMsg))
    (cid : String) (limit : Nat) (now : String) (raws : List RawMsg)
    (hne : parsedOf lu us raws cid ((List.lookup cid cns).getD "unknown") ≠ [])
    (hts : ∀ m ∈ parsedOf lu us raws cid ((List.lookup cid cns).getD "unknown"),
      m.timestamp ≠ "") :
    (∃ M, get_channel_last_message_ts
        (extract_channel_messages lu us cns true cache (fun _ _ => Except.ok raws) repl cid
          limit false now).2 cid = some M
      ∧ M ∈ (parsedOf lu us raws cid ((List.lookup cid cns).getD "unknown")).map
          Message.timestamp
      ∧ ∀ t ∈ (parsedOf lu us raws cid ((List.lookup cid cns).getD "unknown")).map
          Message.timestamp, pyStrLt M t = false)
    ∧ (extract_channel_messages false [] [("C", "general")] true
        (freshSkeleton "2024-01-01T00:00:00") (fun _ _ => Except.ok rawsScenarioA)
        (fun _ _ => Except.ok []) "C" 1000 false "2024-01-02T00:00:00").2.messages
      = (parsedOf false [] rawsScenarioA "C" "general").map asdictMsg
    ∧ (parsedOf false [] rawsScenarioA "C" "general").map Message.timestamp
      = ["1.1", "1.2", "1.3", "1.4", "1.5"]
    ∧ get_channel_last_message_ts
        (extract_channel_messages false [] [("C", "general")] true
          (freshSkeleton "2024-01-01T00:00:00") (fun _ _ => Except.ok rawsScenarioA)
          (fun _ _ => Except.ok []) "C" 1000 false "2024-01-02T00:00:00").2 "C"
      = some "1.5" := by
  refine ⟨?_, by decide, by decide, by decide⟩
  set cn := (List.lookup cid cns).getD "unknown" with hcn
  set parsed := parsedOf lu us raws cid cn with hparsed
  obtain ⟨M, hM, hMmem, hMub⟩ := foldl_latestUpd_none (parsed.map Message.timestamp)
    (by simpa using hne)
  have hMne : M ≠ "" := by
    obtain ⟨m, hm, hmeq⟩ := List.mem_map.mp hMmem
    exact hmeq ▸ hts m hm
  have htr : truthyStrOpt (some M) = true := by simp [truthyStrOpt, hMne]
  have hsnd : (List.foldl (historyStep lu us cns repl cid cn) ([], none) raws).2 = some M := by
    rw [foldl_historyStep_snd, ← hparsed, hM]
  have hlen := foldl_historyStep_fst_len lu us cns repl cid cn raws [] none
  rw [← hparsed] at hlen
  have hfst : (List.foldl (historyStep lu us cns repl cid cn) ([], none) raws).1.isEmpty
      = false := by
    have hp : 0 < parsed.length := List.length_pos.mpr hne
    cases hE : (List.foldl (historyStep lu us cns repl cid cn) ([], none) raws).1.isEmpty with
    | false => rfl
    | true =>
      rw [List.isEmpty_iff.mp hE] at hlen
      simp only [List.length_nil, Nat.zero_add] at hlen
      omega
  refine ⟨M, ?_, hMmem, hMub⟩
  have hwm1 : ∀ X : CacheData,
      get_channel_last_message_ts (update_channel_info X cid cn (some M) now) cid = some M :=
    fun X => update_channel_info_watermark X cid cn (some M) now htr
  rcases hcached : (get_cached_channel_messages true cache cid).isEmpty with _ | _
  · rcases hw : get_channel_last_message_ts cache cid with _ | s
    · simp only [extract_channel_messages, ← hcn, hcached, hw, hsnd, hfst, Bool.not_false,
        Bool.not_true, Bool.true_and, Bool.and_true, Bool.and_false, Bool.false_and,
        Bool.and_self, Option.isSome_some, Option.isSome_none, Bool.false_eq_true,
        eq_self_iff_true, if_true, if_false, ite_true, ite_false]
      exact hwm1 _
    · by_cases hs : (s != "") = true
      · simp only [extract_channel_messages, ← hcn, hcached, hw, hs, hsnd, hfst,
          Bool.not_false, Bool.not_true, Bool.true_and, Bool.and_true, Bool.and_false,
          Bool.false_and, Bool.and_self, Option.isSome_some, Option.isSome_none,
          Bool.false_eq_true, eq_self_iff_true, if_true, if_false, ite_true, ite_false]
        exact hwm1 _
      · have hs2 : (s != "") = false := by simpa using hs
        simp only [extract_channel_messages, ← hcn, hcached, hw, hs2, hsnd, hfst,
          Bool.not_false, Bool.not_true, Bool.true_and, Bool.and_true, Bool.and_false,
          Bool.false_and, Bool.and_self, Option.isSome_some, Option.isSome_none,
          Bool.false_eq_true, eq_self_iff_true, if_true, if_false, ite_true, ite_false]
        exact hwm1 _
  · simp only [extract_channel_messages, ← hcn, hcached, hsnd, hfst, Bool.not_false,
      Bool.not_true, Bool.true_and, Bool.and_true, Bool.and_false, Bool.false_and,
      Bool.and_self, Option.isSome_some, Option.isSome_none, Bool.false_eq_true,
      eq_self_iff_true, if_true, if_false, ite_true, ite_false]
    exact hwm1 _

/-- C2 witness: the amended watermark property applied at the Scenario A inputs. -/
theorem c2_watermark_top_level_max_witness :
    ∃ M, get_channel_last_message_ts
        (extract_channel_messages false [] [("C", "general")] true
          (freshSkeleton "2024-01-01T00:00:00") (fun _ _ => Except.ok rawsScenarioA)
          (fun _ _ => Except.ok []) "C" 1000 false "2024-01-02T00:00:00").2 "C" = some M
      ∧ M ∈ (parsedOf false [] rawsScenarioA "C"
          ((List.lookup "C" [("C", "general")]).getD "unknown")).map Message.timestamp
      ∧ ∀ t ∈ (parsedOf false [] rawsScenarioA "C"
          ((List.lookup "C" [("C", "general")]).getD "unknown")).map Message.timestamp,
          pyStrLt M t = false :=
  (c2_watermark_top_level_max false [] [("C", "general")]
    (freshSkeleton "2024-01-01T00:00:00") (fun _ _ => Except.ok []) "C" 1000
    "2024-01-02T00:00:00" rawsScenarioA (by decide) (by decide)).1
